import Mathlib

/-!
Shallow embedding of the WebApp convergence controller (`main.go`).

The controller manages one custom resource kind (`WebApp`, the Declaration)
and two dependents: a `Deployment` (the Workload) and a `Service` (the
Exposure).  `Reconcile` is the core loop; `deploymentForWebApp` and
`serviceForWebApp` are the desired-state synthesizers.

Modelling decisions:
* `int32` fields become `Int` (replica counts are in `[1,10]`, ports fit; no
  overflow is reachable).
* `metav1.Time` becomes a `Nat` tick supplied to `Reconcile` as the `now`
  parameter (the value `metav1.Now()` returns during the pass).
* `metav1.ConditionStatus` is used by the code only with the two values
  `ConditionTrue` / `ConditionFalse`, so it becomes `Bool`.
* The Go field `Condition.Type` is spelled `condType` (`type` is reserved).
* The store holds at most one object of each kind for the reconciled
  identity; `Reconcile` acts on that single identity.
* Store errors: each store call is numbered in program order within a pass;
  a fault oracle `failAt : Nat → Bool` says whether the n-th call returns a
  transient (non-NotFound) error.  A failed call leaves the store unchanged.
  NotFound is represented by the slot being `none` with a successful call.
* The nil-pointer dereference `*deployment.Spec.Replicas` is made total by
  the distinguished outcome `nilDeref` (the Go program would panic there).
-/

structure EnvVar where
  name : String
  value : String
deriving DecidableEq, Repr

structure WebAppSpec where
  image : String
  replicas : Int
  port : Int
  env : List EnvVar
deriving DecidableEq, Repr

/-- metav1.Condition as used by the controller: Type, Status (True/False),
Reason, Message, LastTransitionTime. -/
structure Condition where
  condType : String
  status : Bool
  reason : String
  message : String
  lastTransitionTime : Nat
deriving DecidableEq, Repr

structure WebAppStatus where
  availableReplicas : Int
  conditions : List Condition
deriving DecidableEq, Repr

/-- The Declaration: identity (namespace `ns`, name), user spec, controller
status. -/
structure WebApp where
  name : String
  ns : String
  spec : WebAppSpec
  status : WebAppStatus
deriving DecidableEq, Repr

structure ContainerPort where
  containerPort : Int
  name : String
deriving DecidableEq, Repr

structure Container where
  name : String
  image : String
  ports : List ContainerPort
  env : List EnvVar
deriving DecidableEq, Repr

/-- appsv1.DeploymentSpec, restricted to the fields the controller sets or
reads: `Replicas` is a pointer in Go, hence `Option Int` here. -/
structure DeploymentSpec where
  replicas : Option Int
  selector : List (String × String)
  templateLabels : List (String × String)
  containers : List Container
deriving DecidableEq, Repr

structure DeploymentStatus where
  availableReplicas : Int
deriving DecidableEq, Repr

/-- The Workload dependent: appsv1.Deployment with object metadata (name,
namespace, labels, owner reference back to the WebApp). -/
structure Deployment where
  name : String
  ns : String
  labels : List (String × String)
  owner : Option String
  spec : DeploymentSpec
  status : DeploymentStatus
deriving DecidableEq, Repr

structure ServicePort where
  port : Int
  targetPort : Int
  protocol : String
  name : String
deriving DecidableEq, Repr

structure ServiceSpec where
  selector : List (String × String)
  ports : List ServicePort
  svcType : String
deriving DecidableEq, Repr

/-- The Exposure dependent: corev1.Service with object metadata. -/
structure Service where
  name : String
  ns : String
  labels : List (String × String)
  owner : Option String
  spec : ServiceSpec
deriving DecidableEq, Repr

/-- The slice of the state store visible to one reconciliation pass: the
objects stored under the reconciled identity, one optional slot per kind. -/
structure Store where
  webapp : Option WebApp
  deployment : Option Deployment
  service : Option Service
deriving DecidableEq, Repr

/-- deploymentForWebApp (main.go lines 209-263): synthesize the Deployment
shape for a WebApp.  Pure; port falls back to 8080 when the spec port is 0;
the owner reference is set to the WebApp. -/
def deploymentForWebApp (webapp : WebApp) : Deployment :=
  let labels : List (String × String) :=
    [("app", webapp.name), ("managed-by", "webapp-operator")]
  let replicas := webapp.spec.replicas
  let port := if webapp.spec.port = 0 then 8080 else webapp.spec.port
  let envVars := webapp.spec.env.map (fun env => (⟨env.name, env.value⟩ : EnvVar))
  { name := webapp.name
    ns := webapp.ns
    labels := labels
    owner := some webapp.name
    spec :=
      { replicas := some replicas
        selector := labels
        templateLabels := labels
        containers :=
          [{ name := webapp.name
             image := webapp.spec.image
             ports := [{ containerPort := port, name := "http" }]
             env := envVars }] }
    status := { availableReplicas := 0 } }

/-- serviceForWebApp (main.go lines 266-297): synthesize the Service shape
for a WebApp.  Externally visible port fixed at 80, target port from the
spec port (default 8080), selector equal to the label set. -/
def serviceForWebApp (webapp : WebApp) : Service :=
  let labels : List (String × String) :=
    [("app", webapp.name), ("managed-by", "webapp-operator")]
  let port := if webapp.spec.port = 0 then 8080 else webapp.spec.port
  { name := webapp.name
    ns := webapp.ns
    labels := labels
    owner := some webapp.name
    spec :=
      { selector := labels
        ports := [{ port := 80, targetPort := port, protocol := "TCP", name := "http" }]
        svcType := "ClusterIP" } }

/-- The condition message of main.go line 185:
`fmt.Sprintf("Deployment has %d/%d replicas available", ...)`. -/
def condMessage (webapp : WebApp) (deployment : Deployment) : String :=
  "Deployment has " ++ toString deployment.status.availableReplicas ++ "/" ++
    toString webapp.spec.replicas ++ " replicas available"

/-- The readiness condition written at main.go lines 181-192: built with
Status True / Reason "DeploymentReady" and a fresh `metav1.Now()` timestamp,
then overridden to False / "DeploymentNotReady" when the observed available
replicas differ from the spec replicas. -/
def readyCondition (webapp : WebApp) (deployment : Deployment) (now : Nat) : Condition :=
  if deployment.status.availableReplicas ≠ webapp.spec.replicas then
    { condType := "Ready", status := false, reason := "DeploymentNotReady"
      message := condMessage webapp deployment, lastTransitionTime := now }
  else
    { condType := "Ready", status := true, reason := "DeploymentReady"
      message := condMessage webapp deployment, lastTransitionTime := now }

/-- Kinds of store calls a pass can make, in the vocabulary of main.go. -/
inductive OpKind where
  | getWebApp
  | getDeployment
  | createDeployment
  | updateDeployment
  | getService
  | createService
  | statusUpdate
deriving DecidableEq, Repr

/-- One store call as it happened: its kind and whether it succeeded. -/
structure OpRecord where
  kind : OpKind
  ok : Bool
deriving DecidableEq, Repr

/-- Store writes among the operation kinds (create / update / status update;
gets are reads). -/
def OpKind.isWrite : OpKind → Bool
  | .createDeployment => true
  | .updateDeployment => true
  | .createService => true
  | .statusUpdate => true
  | _ => false

/-- What a pass returns: `ok requeue requeueAfter` mirrors
`(ctrl.Result{...}, nil)`, `err` mirrors `(ctrl.Result{}, err)`, and
`nilDeref` marks the nil-pointer dereference of line 146 (a Go panic). -/
inductive Outcome where
  | ok (requeue : Bool) (requeueAfter : Nat)
  | err
  | nilDeref
deriving DecidableEq, Repr

/-- A whole reconciliation pass: its returned outcome, the store afterwards,
and the trace of store calls it made, in order. -/
structure PassResult where
  outcome : Outcome
  store : Store
  ops : List OpRecord
deriving DecidableEq, Repr

/-- Reconcile (main.go lines 109-206).  `failAt n` injects a transient error
into the n-th store call of the pass (0-based, program order). -/
def Reconcile (st : Store) (failAt : Nat → Bool) (now : Nat) : PassResult :=
  -- STEP 1: fetch the WebApp custom resource
  if failAt 0 then
    { outcome := .err, store := st, ops := [⟨.getWebApp, false⟩] }
  else
    match st.webapp with
    | none =>
      -- resource deleted: nothing to do
      { outcome := .ok false 0, store := st, ops := [⟨.getWebApp, true⟩] }
    | some webapp =>
      -- STEP 2: check whether the Deployment exists, create if not
      if failAt 1 then
        { outcome := .err, store := st
          ops := [⟨.getWebApp, true⟩, ⟨.getDeployment, false⟩] }
      else
        match st.deployment with
        | none =>
          if failAt 2 then
            { outcome := .err, store := st
              ops := [⟨.getWebApp, true⟩, ⟨.getDeployment, true⟩,
                      ⟨.createDeployment, false⟩] }
          else
            { outcome := .ok true 0
              store := { st with deployment := some (deploymentForWebApp webapp) }
              ops := [⟨.getWebApp, true⟩, ⟨.getDeployment, true⟩,
                      ⟨.createDeployment, true⟩] }
        | some deployment =>
          -- STEP 3: ensure the Deployment matches the spec (replica drift)
          match deployment.spec.replicas with
          | none =>
            -- `*deployment.Spec.Replicas` dereferences a nil pointer
            { outcome := .nilDeref, store := st
              ops := [⟨.getWebApp, true⟩, ⟨.getDeployment, true⟩] }
          | some current =>
            if current ≠ webapp.spec.replicas then
              if failAt 2 then
                { outcome := .err, store := st
                  ops := [⟨.getWebApp, true⟩, ⟨.getDeployment, true⟩,
                          ⟨.updateDeployment, false⟩] }
              else
                { outcome := .ok true 0
                  store :=
                    { st with
                      deployment :=
                        some { deployment with
                               spec := { deployment.spec with
                                         replicas := some webapp.spec.replicas } } }
                  ops := [⟨.getWebApp, true⟩, ⟨.getDeployment, true⟩,
                          ⟨.updateDeployment, true⟩] }
            else
              -- STEP 4: check whether the Service exists, create if not
              if failAt 2 then
                { outcome := .err, store := st
                  ops := [⟨.getWebApp, true⟩, ⟨.getDeployment, true⟩,
                          ⟨.getService, false⟩] }
              else
                match st.service with
                | none =>
                  if failAt 3 then
                    { outcome := .err, store := st
                      ops := [⟨.getWebApp, true⟩, ⟨.getDeployment, true⟩,
                              ⟨.getService, true⟩, ⟨.createService, false⟩] }
                  else
                    { outcome := .ok true 0
                      store := { st with service := some (serviceForWebApp webapp) }
                      ops := [⟨.getWebApp, true⟩, ⟨.getDeployment, true⟩,
                              ⟨.getService, true⟩, ⟨.createService, true⟩] }
                | some _ =>
                  -- STEP 5: update status
                  if failAt 3 then
                    { outcome := .err, store := st
                      ops := [⟨.getWebApp, true⟩, ⟨.getDeployment, true⟩,
                              ⟨.getService, true⟩, ⟨.statusUpdate, false⟩] }
                  else
                    { outcome := .ok false 30
                      store :=
                        { st with
                          webapp :=
                            some { webapp with
                                   status :=
                                     { availableReplicas :=
                                         deployment.status.availableReplicas
                                       conditions :=
                                         [readyCondition webapp deployment now] } } }
                      ops := [⟨.getWebApp, true⟩, ⟨.getDeployment, true⟩,
                              ⟨.getService, true⟩, ⟨.statusUpdate, true⟩] }

/-- The fault-free oracle: no store call fails. -/
def noFail : Nat → Bool := fun _ => false

/-- The store writes a pass performed, in order. -/
def PassResult.writes (p : PassResult) : List OpKind :=
  (p.ops.filter (fun o => o.kind.isWrite)).map (fun o => o.kind)

/-- A fault oracle failing the very first store call of the pass. -/
def failFirst : Nat → Bool := fun k => k == 0

/-- The Declaration of the spec's concrete scenario:
`{name: nginx-app, image: nginx:1.25, replicas: 3, port: 80}`. -/
def nginxApp : WebApp :=
  { name := "nginx-app"
    ns := "default"
    spec := { image := "nginx:1.25", replicas := 3, port := 80, env := [] }
    status := { availableReplicas := 0, conditions := [] } }

/-- The same Declaration with its spec replica count raised to 5 (the spec's
replica-drift scenario). -/
def nginxApp5 : WebApp :=
  { nginxApp with spec := { nginxApp.spec with replicas := 5 } }

/-- A Declaration whose spec port is unset (zero). -/
def portlessApp : WebApp :=
  { nginxApp with spec := { nginxApp.spec with port := 0 } }

/-- The synthesized Workload for `nginxApp`, observed with 3 available
replicas (the store reports the spec replica count). -/
def nginxDeployment3 : Deployment :=
  { deploymentForWebApp nginxApp with status := { availableReplicas := 3 } }

/-- A fully converged store for `nginxApp`: both dependents exist and the
Workload replica count matches the spec. -/
def convergedStore : Store :=
  ⟨some nginxApp, some nginxDeployment3, some (serviceForWebApp nginxApp)⟩

/-- `nginxApp` carrying an already-written positive readiness condition with
transition timestamp 0. -/
def readyNginxApp : WebApp :=
  { nginxApp with status :=
      { availableReplicas := 3
        conditions := [{ condType := "Ready", status := true
                         reason := "DeploymentReady"
                         message := "Deployment has 3/3 replicas available"
                         lastTransitionTime := 0 }] } }

/-- A converged store whose Declaration already carries the positive
readiness condition written at time 0. -/
def readyStore : Store :=
  ⟨some readyNginxApp, some nginxDeployment3, some (serviceForWebApp nginxApp)⟩

/-- An externally created Workload whose replica pointer is unset
(`Spec.Replicas == nil`); the controller's synthesizer never produces this. -/
def externalDeployment : Deployment :=
  { name := "nginx-app", ns := "default", labels := [], owner := none
    spec := { replicas := none, selector := [], templateLabels := [], containers := [] }
    status := { availableReplicas := 0 } }

/-- Claim C8: when the Declaration is absent (NotFound on the initial
fetch), the pass returns success with no re-queue directive, leaves the
store untouched, and its operation trace is exactly the one successful
initial get — no further reads and no writes. -/
theorem reconcile_absent_declaration (od : Option Deployment) (os : Option Service)
    (f : Nat → Bool) (now : Nat) (h : f 0 = false) :
    Reconcile ⟨none, od, os⟩ f now =
      { outcome := .ok false 0, store := ⟨none, od, os⟩
        ops := [⟨.getWebApp, true⟩] } := by
  simp [Reconcile, h]

/-- Witness for C8 at the empty store. -/
theorem reconcile_absent_declaration_wit :
    Reconcile ⟨none, none, none⟩ noFail 0 =
      { outcome := .ok false 0, store := ⟨none, none, none⟩
        ops := [⟨.getWebApp, true⟩] } :=
  reconcile_absent_declaration none none noFail 0 rfl

/-- Claim C4: whenever the Declaration exists and the Workload is absent —
regardless of every other field of the store — the pass creates exactly the
Workload the Desired-State Synthesizer produces for that Declaration,
returns an immediate re-queue, and performs no later step: its trace stops
at the create, and the Service slot and Declaration are untouched. -/
theorem reconcile_creates_missing_workload (w : WebApp) (os : Option Service) (now : Nat) :
    Reconcile ⟨some w, none, os⟩ noFail now =
      { outcome := .ok true 0
        store := ⟨some w, some (deploymentForWebApp w), os⟩
        ops := [⟨.getWebApp, true⟩, ⟨.getDeployment, true⟩,
                ⟨.createDeployment, true⟩] } := by
  simp [Reconcile, noFail]

/-- Claim C9: with the spec port unset (zero) the synthesized Workload
container port and the synthesized Exposure target port are both 8080; for
every Declaration the Exposure's externally visible port is 80 and its
selector equals the Workload's label set. -/
theorem synthesizer_port_defaults (w : WebApp) (h : w.spec.port = 0) :
    ((deploymentForWebApp w).spec.containers.map fun c =>
        c.ports.map fun p => p.containerPort) = [[8080]] ∧
    ((serviceForWebApp w).spec.ports.map fun p => p.targetPort) = [8080] ∧
    (∀ v : WebApp,
      ((serviceForWebApp v).spec.ports.map fun p => p.port) = [80] ∧
      (serviceForWebApp v).spec.selector = (deploymentForWebApp v).labels) := by
  refine ⟨?_, ?_, fun v => ⟨?_, ?_⟩⟩ <;>
    simp [deploymentForWebApp, serviceForWebApp, h]

/-- Witness for C9 at the port-zero Declaration. -/
theorem synthesizer_port_defaults_wit :
    ((deploymentForWebApp portlessApp).spec.containers.map fun c =>
        c.ports.map fun p => p.containerPort) = [[8080]] :=
  (synthesizer_port_defaults portlessApp rfl).1

/-- Claim C5: when the Workload exists with a replica count differing from
the spec, the pass issues exactly one write — the replica update to the
spec value — requeues immediately without touching the Service or status,
and the following pass proceeds past step 3 (its trace reaches the Service
fetch and contains no Workload update). -/
theorem reconcile_replica_drift (w : WebApp) (d : Deployment) (os : Option Service)
    (c : Int) (now now2 : Nat)
    (hr : d.spec.replicas = some c) (hne : c ≠ w.spec.replicas) :
    (Reconcile ⟨some w, some d, os⟩ noFail now).writes = [.updateDeployment] ∧
    (Reconcile ⟨some w, some d, os⟩ noFail now).outcome = .ok true 0 ∧
    (Reconcile ⟨some w, some d, os⟩ noFail now).store =
      ⟨some w,
       some { d with spec := { d.spec with replicas := some w.spec.replicas } },
       os⟩ ∧
    ((Reconcile (Reconcile ⟨some w, some d, os⟩ noFail now).store noFail now2).ops.map
        (fun o => o.kind)).take 3 = [.getWebApp, .getDeployment, .getService] ∧
    .updateDeployment ∉
      (Reconcile (Reconcile ⟨some w, some d, os⟩ noFail now).store noFail now2).writes := by
  have h1 : Reconcile ⟨some w, some d, os⟩ noFail now =
      { outcome := .ok true 0
        store :=
          ⟨some w,
           some { d with spec := { d.spec with replicas := some w.spec.replicas } },
           os⟩
        ops := [⟨.getWebApp, true⟩, ⟨.getDeployment, true⟩,
                ⟨.updateDeployment, true⟩] } := by
    simp [Reconcile, noFail, hr, hne]
  rw [h1]
  refine ⟨by simp [PassResult.writes, OpKind.isWrite], rfl, rfl, ?_, ?_⟩ <;>
    cases os <;>
      simp [Reconcile, noFail, PassResult.writes, OpKind.isWrite]

/-- Witness for C5: Declaration updated to 5 replicas over the synthesized
3-replica Workload issues the replica update. -/
theorem reconcile_replica_drift_wit :
    (Reconcile ⟨some nginxApp5, some (deploymentForWebApp nginxApp), none⟩ noFail 0).writes =
      [.updateDeployment] :=
  (reconcile_replica_drift nginxApp5 (deploymentForWebApp nginxApp) none 3 0 1 rfl
    (by decide)).1

/-- Claim C6: every pass reaching status computation copies the Workload's
observed available replicas into the status, writes exactly one condition,
of type Ready, positive exactly when the observed available replicas equal
the spec replica count (with reason DeploymentReady, otherwise
DeploymentNotReady), and returns the periodic 30-unit directive. -/
theorem reconcile_status_step (w : WebApp) (d : Deployment) (s : Service) (now : Nat)
    (hr : d.spec.replicas = some w.spec.replicas) :
    (Reconcile ⟨some w, some d, some s⟩ noFail now).outcome = .ok false 30 ∧
    ∃ c : Condition,
      (Reconcile ⟨some w, some d, some s⟩ noFail now).store.webapp =
        some { w with status :=
                 { availableReplicas := d.status.availableReplicas
                   conditions := [c] } } ∧
      c.condType = "Ready" ∧
      (c.status = true ↔ d.status.availableReplicas = w.spec.replicas) ∧
      c.reason = (if d.status.availableReplicas = w.spec.replicas then
                    "DeploymentReady" else "DeploymentNotReady") := by
  refine ⟨by simp [Reconcile, noFail, hr], readyCondition w d now, ?_, ?_, ?_, ?_⟩ <;>
    by_cases h : d.status.availableReplicas = w.spec.replicas <;>
      simp [Reconcile, noFail, hr, readyCondition, h]

/-- Witness for C6 at the converged nginx store. -/
theorem reconcile_status_step_wit :
    (Reconcile ⟨some nginxApp, some nginxDeployment3,
        some (serviceForWebApp nginxApp)⟩ noFail 5).outcome = .ok false 30 :=
  (reconcile_status_step nginxApp nginxDeployment3 (serviceForWebApp nginxApp) 5 rfl).1

/-- Claim C1, counterexample: on the already-converged nginx store the pass
does not produce an empty write trace — it issues the status update — so
the claim "no store writes and the periodic directive" is false as stated. -/
theorem converged_no_writes_cex :
    ¬ ((Reconcile convergedStore noFail 7).writes = [] ∧
       (Reconcile convergedStore noFail 7).outcome = .ok false 30) := by
  decide

/-- Claim C1, amended: on a converged system the pass issues no write to
either dependent — its only write is the Declaration status update — leaves
both dependents unchanged in the store, and returns the periodic 30-unit
directive. -/
theorem converged_single_status_write (w : WebApp) (d : Deployment) (s : Service)
    (now : Nat) (hr : d.spec.replicas = some w.spec.replicas) :
    (Reconcile ⟨some w, some d, some s⟩ noFail now).writes = [.statusUpdate] ∧
    (Reconcile ⟨some w, some d, some s⟩ noFail now).store.deployment = some d ∧
    (Reconcile ⟨some w, some d, some s⟩ noFail now).store.service = some s ∧
    (Reconcile ⟨some w, some d, some s⟩ noFail now).outcome = .ok false 30 := by
  refine ⟨?_, ?_, ?_, ?_⟩ <;>
    simp [Reconcile, noFail, hr, PassResult.writes, OpKind.isWrite]

/-- Witness for the amended C1 at the converged nginx store. -/
theorem converged_single_status_write_wit :
    (Reconcile ⟨some nginxApp, some nginxDeployment3,
        some (serviceForWebApp nginxApp)⟩ noFail 7).writes = [.statusUpdate] :=
  (converged_single_status_write nginxApp nginxDeployment3
    (serviceForWebApp nginxApp) 7 rfl).1

/-- Claim C2, counterexample: the stored readiness condition is positive
with transition timestamp 0, the pass at time 99 leaves the condition state
unchanged (still positive), yet the stored timestamp becomes 99 instead of
being left as it was. -/
theorem condition_timestamp_cex :
    (readyNginxApp.status.conditions.map fun c => (c.status, c.lastTransitionTime)) =
      [(true, 0)] ∧
    ((Reconcile readyStore noFail 99).store.webapp.map fun w =>
        w.status.conditions.map fun c => (c.status, c.lastTransitionTime)) =
      some [(true, 99)] ∧
    ((Reconcile readyStore noFail 99).store.webapp.map fun w =>
        w.status.conditions.map fun c => c.lastTransitionTime) ≠
      some (readyNginxApp.status.conditions.map fun c => c.lastTransitionTime) := by
  refine ⟨by decide, by decide, by decide⟩

/-- Claim C2, amended: every pass that reaches status computation stamps the
written readiness condition with the current time, whether or not the
condition's state changed relative to the previously stored condition. -/
theorem condition_timestamp_always_fresh (w : WebApp) (d : Deployment) (s : Service)
    (now : Nat) (hr : d.spec.replicas = some w.spec.replicas) :
    ((Reconcile ⟨some w, some d, some s⟩ noFail now).store.webapp.map fun x =>
        x.status.conditions.map fun c => c.lastTransitionTime) = some [now] := by
  by_cases h : d.status.availableReplicas = w.spec.replicas <;>
    simp [Reconcile, noFail, hr, readyCondition, h]

/-- Witness for the amended C2 at the ready store carrying timestamp 0. -/
theorem condition_timestamp_always_fresh_wit :
    ((Reconcile ⟨some readyNginxApp, some nginxDeployment3,
        some (serviceForWebApp nginxApp)⟩ noFail 99).store.webapp.map fun x =>
        x.status.conditions.map fun c => c.lastTransitionTime) = some [99] :=
  condition_timestamp_always_fresh readyNginxApp nginxDeployment3
    (serviceForWebApp nginxApp) 99 rfl

/-- Claim C3: from a store holding only the Declaration, pass 1 creates the
Workload (with the spec replica count) and requeues immediately, pass 2
creates the Exposure and requeues immediately, and pass 3 — once the store
reports `a` available replicas on the Workload — writes status with that
available count and a single Ready condition positive exactly when `a`
equals the spec replica count, returning the periodic 30-unit directive. -/
theorem convergence_three_passes (w : WebApp) (a : Int) (n1 n2 n3 : Nat) :
    (Reconcile ⟨some w, none, none⟩ noFail n1).writes = [.createDeployment] ∧
    (Reconcile ⟨some w, none, none⟩ noFail n1).outcome = .ok true 0 ∧
    (Reconcile ⟨some w, none, none⟩ noFail n1).store =
      ⟨some w, some (deploymentForWebApp w), none⟩ ∧
    (deploymentForWebApp w).spec.replicas = some w.spec.replicas ∧
    (Reconcile ⟨some w, some (deploymentForWebApp w), none⟩ noFail n2).writes =
      [.createService] ∧
    (Reconcile ⟨some w, some (deploymentForWebApp w), none⟩ noFail n2).outcome =
      .ok true 0 ∧
    (Reconcile ⟨some w, some (deploymentForWebApp w), none⟩ noFail n2).store =
      ⟨some w, some (deploymentForWebApp w), some (serviceForWebApp w)⟩ ∧
    (Reconcile ⟨some w,
        some { deploymentForWebApp w with status := { availableReplicas := a } },
        some (serviceForWebApp w)⟩ noFail n3).writes = [.statusUpdate] ∧
    (Reconcile ⟨some w,
        some { deploymentForWebApp w with status := { availableReplicas := a } },
        some (serviceForWebApp w)⟩ noFail n3).outcome = .ok false 30 ∧
    ((Reconcile ⟨some w,
        some { deploymentForWebApp w with status := { availableReplicas := a } },
        some (serviceForWebApp w)⟩ noFail n3).store.webapp.map fun x =>
          x.status.availableReplicas) = some a ∧
    ((Reconcile ⟨some w,
        some { deploymentForWebApp w with status := { availableReplicas := a } },
        some (serviceForWebApp w)⟩ noFail n3).store.webapp.map fun x =>
          x.status.conditions.map fun c => (c.condType, c.status)) =
      some [("Ready", decide (a = w.spec.replicas))] := by
  have hdr : (deploymentForWebApp w).spec.replicas = some w.spec.replicas := rfl
  refine ⟨by simp [Reconcile, noFail, PassResult.writes, OpKind.isWrite],
          by simp [Reconcile, noFail], by simp [Reconcile, noFail], rfl,
          ?_, ?_, ?_, ?_, ?_, ?_, ?_⟩ <;>
    by_cases h : a = w.spec.replicas <;>
      simp [Reconcile, noFail, PassResult.writes, OpKind.isWrite, readyCondition,
        hdr, h]

/-- Claim C7: whenever a pass returns a store error, the store is exactly as
it was before the pass (in particular the Declaration's spec and status are
unchanged), every operation before the failing one succeeded, and the
failing operation is the last one in the trace — nothing runs after it. -/
theorem store_error_aborts_pass (st : Store) (f : Nat → Bool) (now : Nat)
    (h : (Reconcile st f now).outcome = .err) :
    (Reconcile st f now).store = st ∧
    (Reconcile st f now).ops ≠ [] ∧
    (Reconcile st f now).ops.dropLast.all (fun o => o.ok) = true ∧
    ((Reconcile st f now).ops.getLast?.map fun o => o.ok) = some false := by
  obtain ⟨ow, od, os⟩ := st
  by_cases h0 : f 0 = true
  · simp [Reconcile, h0]
  · cases ow with
    | none => simp [Reconcile, h0] at h
    | some w =>
      by_cases h1 : f 1 = true
      · simp [Reconcile, h0, h1]
      · cases od with
        | none =>
          by_cases h2 : f 2 = true
          · simp [Reconcile, h0, h1, h2]
          · simp [Reconcile, h0, h1, h2] at h
        | some d =>
          cases hr : d.spec.replicas with
          | none => simp [Reconcile, h0, h1, hr] at h
          | some c =>
            by_cases hc : c = w.spec.replicas
            · by_cases h2 : f 2 = true
              · simp [Reconcile, h0, h1, hr, hc, h2]
              · cases os with
                | none =>
                  by_cases h3 : f 3 = true
                  · simp [Reconcile, h0, h1, hr, hc, h2, h3]
                  · simp [Reconcile, h0, h1, hr, hc, h2, h3] at h
                | some s =>
                  by_cases h3 : f 3 = true
                  · simp [Reconcile, h0, h1, hr, hc, h2, h3]
                  · simp [Reconcile, h0, h1, hr, hc, h2, h3] at h
            · by_cases h2 : f 2 = true
              · simp [Reconcile, h0, h1, hr, hc, h2]
              · simp [Reconcile, h0, h1, hr, hc, h2] at h

/-- Witness for C7: a failure injected into the initial get leaves the
empty store untouched. -/
theorem store_error_aborts_pass_wit :
    (Reconcile ⟨none, none, none⟩ failFirst 0).store = ⟨none, none, none⟩ :=
  (store_error_aborts_pass ⟨none, none, none⟩ failFirst 0 (by decide)).1

/-- Claim C10: the synthesizer always sets the Workload replica field, so on
any store whose Workload (when present) has the field set — in particular
any Workload the controller itself created — the replica-count dereference
of step 3 is safe and the `nilDeref` outcome is unreachable; on an
externally created Workload with the field unset, the pass reaches exactly
that outcome (the Go code dereferences nil there). -/
theorem replica_deref_safety :
    (∀ w : WebApp, (deploymentForWebApp w).spec.replicas = some w.spec.replicas) ∧
    (∀ (st : Store) (f : Nat → Bool) (now : Nat),
      (∀ d : Deployment, st.deployment = some d → d.spec.replicas ≠ none) →
      (Reconcile st f now).outcome ≠ .nilDeref) ∧
    (Reconcile ⟨some nginxApp, some externalDeployment, none⟩ noFail 0).outcome =
      .nilDeref := by
  refine ⟨fun w => rfl, ?_, by decide⟩
  intro st f now hset
  obtain ⟨ow, od, os⟩ := st
  by_cases h0 : f 0 = true
  · simp [Reconcile, h0]
  · cases ow with
    | none => simp [Reconcile, h0]
    | some w =>
      by_cases h1 : f 1 = true
      · simp [Reconcile, h0, h1]
      · cases od with
        | none =>
          by_cases h2 : f 2 = true <;> simp [Reconcile, h0, h1, h2]
        | some d =>
          cases hr : d.spec.replicas with
          | none => exact absurd hr (by simpa using hset d rfl)
          | some c =>
            by_cases hc : c = w.spec.replicas
            · by_cases h2 : f 2 = true
              · simp [Reconcile, h0, h1, hr, hc, h2]
              · cases os with
                | none =>
                  by_cases h3 : f 3 = true <;>
                    simp [Reconcile, h0, h1, hr, hc, h2, h3]
                | some s =>
                  by_cases h3 : f 3 = true <;>
                    simp [Reconcile, h0, h1, hr, hc, h2, h3]
            · by_cases h2 : f 2 = true <;>
                simp [Reconcile, h0, h1, hr, hc, h2]

/-- Witness for C10: on the controller's own synthesized Workload the
dereference is safe. -/
theorem replica_deref_safety_wit :
    (Reconcile ⟨some nginxApp, some (deploymentForWebApp nginxApp), none⟩
        noFail 0).outcome ≠ .nilDeref :=
  replica_deref_safety.2.1
    ⟨some nginxApp, some (deploymentForWebApp nginxApp), none⟩ noFail 0
    (by intro d hd
        simp only [Option.some.injEq] at hd
        subst hd
        decide)
